import Mathlib

/-!
# carl: exact intervals and real algebraic numbers

A shallow embedding of `src/carl/interval/ExactInterval.h`,
`src/carl/core/RealAlgebraicNumber.h` and the node type of
`src/carl/core/MultivariateHorner.h`.

* The template parameter `Numeric` / `Number` is an arbitrary linearly ordered
  type `N` (the C++ operators `<`, `<=`, `==`, `>` are those of the order).
* Member functions that mutate `*this` take the object and return the new one.
* Constructors guarded by an assertion return an `Option`.
-/

namespace carl

/-! ## Definitions -/

/-- Modelled from the spec: the enumeration of `BoundType.h`, which is included by
`ExactInterval.h` but is not part of the sources at hand. The spec gives
`BoundType ∈ {WEAK, STRICT, INFTY}`: an endpoint is included (`WEAK`), excluded
(`STRICT`) or unbounded (`INFTY`). -/
inductive BoundType where
  | STRICT
  | WEAK
  | INFTY
  deriving DecidableEq, Repr

/-- Modelled from the spec: the enumeration of `Sign.h`, which is included by both
headers but is not part of the sources at hand. The spec names the three results
`NEGATIVE`, `ZERO` and `POSITIVE`. -/
inductive Sign where
  | NEGATIVE
  | ZERO
  | POSITIVE
  deriving DecidableEq, Repr

/-- The check `BOUNDS_OK( left, leftType, right, rightType )` of `ExactInterval.h`:
`leftType == INFTY || rightType == INFTY || left <= right`. -/
def BOUNDS_OK {N : Type} [LinearOrder N]
    (left : N) (leftType : BoundType) (right : N) (rightType : BoundType) : Bool :=
  decide (leftType = BoundType.INFTY) || decide (rightType = BoundType.INFTY) ||
    decide (left ≤ right)

/-- The four attributes of `class ExactInterval<Numeric>`. -/
structure ExactInterval (N : Type) where
  mLeft : N
  mLeftType : BoundType
  mRight : N
  mRightType : BoundType
  deriving DecidableEq, Repr

namespace ExactInterval

variable {N : Type}

/-- The constructor `ExactInterval( const Numeric& n )`: the point interval `[n, n]`. -/
def point (n : N) : ExactInterval N :=
  { mLeft := n, mLeftType := BoundType.WEAK, mRight := n, mRightType := BoundType.WEAK }

/-- Modelled from the spec: the constructor
`ExactInterval( l, lType, r, rType )`, declared in `ExactInterval.h` and defined in
`ExactInterval.tpp`, which is not part of the sources at hand. The spec says an
interval is "created by a constructor validating the bound ordering", and the header
names `BOUNDS_OK` as the assertion that checks the input of constructors: the four
arguments are stored when `BOUNDS_OK` holds, and there is no result otherwise. -/
def construct [LinearOrder N] (l : N) (lType : BoundType) (r : N) (rType : BoundType) :
    Option (ExactInterval N) :=
  if BOUNDS_OK l lType r rType then
    some { mLeft := l, mLeftType := lType, mRight := r, mRightType := rType }
  else
    none

/-- The setter `setLeft( l )`: `mLeft = l`. -/
def setLeft (i : ExactInterval N) (l : N) : ExactInterval N :=
  { i with mLeft := l }

/-- The setter `setLeftType( lType )`: `mLeftType = lType`. -/
def setLeftType (i : ExactInterval N) (lType : BoundType) : ExactInterval N :=
  { i with mLeftType := lType }

/-- The setter `setRight( r )`: `mRight = r`. -/
def setRight (i : ExactInterval N) (r : N) : ExactInterval N :=
  { i with mRight := r }

/-- The setter `setRightType( rType )`: `mRightType = rType`. -/
def setRightType (i : ExactInterval N) (rType : BoundType) : ExactInterval N :=
  { i with mRightType := rType }

/-- The selector `left()`. -/
def left (i : ExactInterval N) : N := i.mLeft

/-- The selector `right()`. -/
def right (i : ExactInterval N) : N := i.mRight

/-- The selector `leftType()`. -/
def leftType (i : ExactInterval N) : BoundType := i.mLeftType

/-- The selector `rightType()`. -/
def rightType (i : ExactInterval N) : BoundType := i.mRightType

/-- The predicate `empty()`:
`!(mLeftType == INFTY || mRightType == INFTY || left() < right()
   || ( left() == right() && mLeftType != STRICT && mRightType != STRICT ))`. -/
def empty [LinearOrder N] (i : ExactInterval N) : Bool :=
  !(decide (i.mLeftType = BoundType.INFTY) || decide (i.mRightType = BoundType.INFTY) ||
    decide (i.left < i.right) ||
    (decide (i.left = i.right) && decide (i.mLeftType ≠ BoundType.STRICT) &&
      decide (i.mRightType ≠ BoundType.STRICT)))

/-- The predicate `unbounded()`: `mLeftType == INFTY && mRightType == INFTY`. -/
def unbounded (i : ExactInterval N) : Bool :=
  decide (i.mLeftType = BoundType.INFTY) && decide (i.mRightType = BoundType.INFTY)

/-- The predicate `halfunbounded()`: `mLeftType == INFTY || mRightType == INFTY`. -/
def halfunbounded (i : ExactInterval N) : Bool :=
  decide (i.mLeftType = BoundType.INFTY) || decide (i.mRightType = BoundType.INFTY)

/-- The static method `emptyExactInterval()`:
`ExactInterval( Numeric(0), STRICT, Numeric(0), STRICT )`. -/
def emptyExactInterval [LinearOrderedRing N] : Option (ExactInterval N) :=
  construct (0 : N) BoundType.STRICT (0 : N) BoundType.STRICT

/-- The static method `unboundedExactInterval()`:
`ExactInterval( Numeric(-1), INFTY, Numeric(1), INFTY )`. -/
def unboundedExactInterval [LinearOrderedRing N] : Option (ExactInterval N) :=
  construct (-1 : N) BoundType.INFTY (1 : N) BoundType.INFTY

/-- The auxiliary function `getWeakestBoundType( type1, type2 )`:
`(type1 == INFTY || type2 == INFTY) ? INFTY
   : (type1 == STRICT || type2 == STRICT) ? STRICT : WEAK`. -/
def getWeakestBoundType (type1 type2 : BoundType) : BoundType :=
  if type1 = BoundType.INFTY ∨ type2 = BoundType.INFTY then BoundType.INFTY
  else if type1 = BoundType.STRICT ∨ type2 = BoundType.STRICT then BoundType.STRICT
  else BoundType.WEAK

end ExactInterval

/-- The order on bound types that the spec uses for the word "weakest":
`WEAK < STRICT < INFTY` (`INFTY` dominates `STRICT` dominates `WEAK`), as a rank.
This follows the words of the spec, not the code. -/
def weaknessRank : BoundType → Nat
  | BoundType.WEAK => 0
  | BoundType.STRICT => 1
  | BoundType.INFTY => 2

/-- The three attributes `mIsRoot`, `mIsNumeric`, `mValue` of
`class RealAlgebraicNumber<Number>`. The private self pointer `pThis` holds no value
of its own and is left out. -/
structure RealAlgebraicNumber (N : Type) where
  mIsRoot : Bool
  mIsNumeric : Bool
  mValue : N
  deriving DecidableEq, Repr

namespace RealAlgebraicNumber

variable {N : Type}

/-- The selector `value()`. -/
def value (x : RealAlgebraicNumber N) : N := x.mValue

/-- The operation `sgn()` of the base class:
`if (value() == 0) return ZERO; else if (value() > 0) return POSITIVE;
 else return NEGATIVE;`. -/
def sgn [LinearOrder N] [Zero N] (x : RealAlgebraicNumber N) : Sign :=
  if x.value = 0 then Sign.ZERO
  else if x.value > 0 then Sign.POSITIVE
  else Sign.NEGATIVE

/-- The factory `create(bool isRoot, bool isNumeric = false, const Number& value = 0)`:
`new RealAlgebraicNumber(isRoot, isNumeric, value)`, whose constructor stores the three
arguments in `mIsRoot`, `mIsNumeric` and `mValue`. -/
def create [Zero N] (isRoot : Bool) (isNumeric : Bool := false) (value : N := 0) :
    RealAlgebraicNumber N :=
  { mIsRoot := isRoot, mIsNumeric := isNumeric, mValue := value }

/-- The selector `isRoot()`. -/
def isRoot (x : RealAlgebraicNumber N) : Bool := x.mIsRoot

/-- The selector `isNumeric()`. -/
def isNumeric (x : RealAlgebraicNumber N) : Bool := x.mIsNumeric

/-- The operation `clone()`: `create(isRoot(), isNumeric(), value())`. -/
def clone [Zero N] (x : RealAlgebraicNumber N) : RealAlgebraicNumber N :=
  create x.isRoot x.isNumeric x.value

/-- The setter `setIsRoot(bool isRoot)`: `mIsRoot = isRoot`. -/
def setIsRoot (x : RealAlgebraicNumber N) (isRoot : Bool) : RealAlgebraicNumber N :=
  { x with mIsRoot := isRoot }

/-- The operation `isZero()` of the base class: `value() == 0`. -/
def isZero [DecidableEq N] [Zero N] (x : RealAlgebraicNumber N) : Bool :=
  decide (x.value = 0)

/-- The operation `isNumericRepresentation()` of the base class: `return true`. -/
def isNumericRepresentation (_x : RealAlgebraicNumber N) : Bool := true

/-- The operation `branchingPoint()` of the base class: `value()`. -/
def branchingPoint (x : RealAlgebraicNumber N) : N := x.value

/-- The assignment `operator=(const RealAlgebraicNumber& o)`:
`mIsRoot = o.mIsRoot; mValue = o.mValue; mIsNumeric = o.mIsNumeric;`. The result is the
pair of the assigned object and of the argument `o`, which is taken by const
reference, after the call. -/
def assign (_x o : RealAlgebraicNumber N) : RealAlgebraicNumber N × RealAlgebraicNumber N :=
  ({ mIsRoot := o.mIsRoot, mIsNumeric := o.mIsNumeric, mValue := o.mValue }, o)

/-- The operation `containedIn(const Interval<Number>& i)` of the base class:
`i.contains(value())`. The class `Interval` is not part of the sources at hand, so its
membership test `contains` is a parameter. -/
def containedIn {I : Type} (contains : I → N → Bool) (x : RealAlgebraicNumber N) (i : I) :
    Bool :=
  contains i x.value

/-- The operation `sgn(const UnivariatePolynomial<Number>& p)` of the base class:
`Number x = p.evaluate(value()); if (x == 0) return ZERO;
 else if (x > 0) return POSITIVE; else return NEGATIVE;`. The class
`UnivariatePolynomial` is not part of the sources at hand, so its point evaluation
`evaluate` is a parameter. -/
def sgnPoly {P : Type} [LinearOrder N] [Zero N] (evaluate : P → N → N)
    (x : RealAlgebraicNumber N) (p : P) : Sign :=
  if evaluate p x.value = 0 then Sign.ZERO
  else if evaluate p x.value > 0 then Sign.POSITIVE
  else Sign.NEGATIVE

/-- The operation `approximateValue()` of the base class: `value()`. -/
def approximateValue (x : RealAlgebraicNumber N) : N := x.value

/-- The public member functions of `class RealAlgebraicNumber<Number>`, each with the
arguments of its call; `P` stands for `UnivariatePolynomial<Number>` and `I` for
`Interval<Number>`. -/
inductive Operation (N P I : Type) where
  | clone
  | isRoot
  | setIsRoot (isRoot : Bool)
  | isZero
  | isNumeric
  | isNumericRepresentation
  | branchingPoint
  | value
  | assign (o : RealAlgebraicNumber N)
  | containedIn (i : I)
  | sgn
  | sgnPoly (p : P)
  | approximateValue

/-- The object after a call of a public member function on it. Every member function
but `setIsRoot` and `operator=` is declared `const` and writes no attribute. -/
def stateAfter {P I : Type} (x : RealAlgebraicNumber N) :
    Operation N P I → RealAlgebraicNumber N
  | Operation.setIsRoot b => x.setIsRoot b
  | Operation.assign o => (x.assign o).1
  | Operation.clone => x
  | Operation.isRoot => x
  | Operation.isZero => x
  | Operation.isNumeric => x
  | Operation.isNumericRepresentation => x
  | Operation.branchingPoint => x
  | Operation.value => x
  | Operation.containedIn _ => x
  | Operation.sgn => x
  | Operation.sgnPoly _ => x
  | Operation.approximateValue => x

end RealAlgebraicNumber

/-- The six attributes of `class MultivariateHorner<PolynomialType, strategy>`:
`mConst_dependent`, `mConst_independent` (of type `CoeffType`, here `C`), `mVariable`
(of type `Variable`, which is not part of the sources at hand, here `V`), `mExponent`
(an `unsigned`) and the two shared pointers `mH_dependent` and `mH_independent`. A
shared pointer is given by the node it points to, and `none` is the null pointer. -/
inductive MultivariateHorner (C V : Type) where
  | mk (mConst_dependent : C) (mConst_independent : C) (mVariable : V) (mExponent : Nat)
      (mH_dependent : Option (MultivariateHorner C V))
      (mH_independent : Option (MultivariateHorner C V))

namespace MultivariateHorner

variable {C V : Type}

/-- The assignment `operator=(const MultivariateHorner& mh)`:
`mConst_dependent = mh.mConst_dependent; mConst_independent = mh.mConst_independent;
 mH_dependent = mh.mH_dependent; mH_independent = mh.mH_independent;
 mVariable = mh.mVariable; mExponent = mh.mExponent;`. The result is the pair of the
assigned node and of the argument `mh`, which is taken by const reference, after the
call. -/
def assign (_x mh : MultivariateHorner C V) : MultivariateHorner C V × MultivariateHorner C V :=
  match mh with
  | mk constDependent constIndependent var exponent hDependent hIndependent =>
    (mk constDependent constIndependent var exponent hDependent hIndependent, mh)

/-- The getter `getVariable()`: `mVariable`. -/
def getVariable : MultivariateHorner C V → V
  | mk _ _ var _ _ _ => var

/-- The getter `getDependent()`: `mH_dependent`. -/
def getDependent : MultivariateHorner C V → Option (MultivariateHorner C V)
  | mk _ _ _ _ hDependent _ => hDependent

/-- The getter `getIndependent()`: `mH_independent`. -/
def getIndependent : MultivariateHorner C V → Option (MultivariateHorner C V)
  | mk _ _ _ _ _ hIndependent => hIndependent

/-- The getter `getDepConstant()`: `mConst_dependent`. -/
def getDepConstant : MultivariateHorner C V → C
  | mk constDependent _ _ _ _ _ => constDependent

/-- The getter `getIndepConstant()`: `mConst_independent`. -/
def getIndepConstant : MultivariateHorner C V → C
  | mk _ constIndependent _ _ _ _ => constIndependent

/-- The getter `getExponent()`: `mExponent`. -/
def getExponent : MultivariateHorner C V → Nat
  | mk _ _ _ exponent _ _ => exponent

end MultivariateHorner

/-! ## Theorems -/

open BoundType

/-- C1 (as the code has it): `halfunbounded()` is true exactly when at least one of
the two bound types is `INFTY`; so it is true when both are `INFTY` and false when
neither is, whatever the bound values. -/
theorem halfunbounded_iff_some_infty {N : Type} (i : ExactInterval N) :
    (i.halfunbounded = true ↔ (i.leftType = INFTY ∨ i.rightType = INFTY)) ∧
    (i.halfunbounded = false ↔ (i.leftType ≠ INFTY ∧ i.rightType ≠ INFTY)) := by
  constructor
  · simp [ExactInterval.halfunbounded, ExactInterval.leftType, ExactInterval.rightType]
  · simp [ExactInterval.halfunbounded, ExactInterval.leftType, ExactInterval.rightType]

/-- C1, counterexample: on the interval with bounds `-1` and `1` and both bound types
`INFTY`, `halfunbounded()` is true although it is not the case that exactly one bound
type is `INFTY`. -/
theorem halfunbounded_both_infty_counterexample :
    ¬ ((ExactInterval.mk (-1 : ℚ) INFTY 1 INFTY).halfunbounded = true ↔
        (((ExactInterval.mk (-1 : ℚ) INFTY 1 INFTY).leftType = INFTY ∧
            (ExactInterval.mk (-1 : ℚ) INFTY 1 INFTY).rightType ≠ INFTY) ∨
          ((ExactInterval.mk (-1 : ℚ) INFTY 1 INFTY).leftType ≠ INFTY ∧
            (ExactInterval.mk (-1 : ℚ) INFTY 1 INFTY).rightType = INFTY))) := by
  simp [ExactInterval.halfunbounded, ExactInterval.leftType, ExactInterval.rightType]

/-- C2 (as the code has it): `empty()` is true exactly when neither bound type is
`INFTY` and the bounds are inverted (`left > right`) or form a degenerate strict point
(`left == right` with `leftType` or `rightType` `STRICT`). -/
theorem empty_iff_finite_and_inverted_or_strict_point {N : Type} [LinearOrder N]
    (i : ExactInterval N) :
    i.empty = true ↔
      (i.leftType ≠ INFTY ∧ i.rightType ≠ INFTY ∧
        (i.left > i.right ∨
          (i.left = i.right ∧ (i.leftType = STRICT ∨ i.rightType = STRICT)))) := by
  obtain ⟨l, lt, r, rt⟩ := i
  simp only [ExactInterval.empty, ExactInterval.left, ExactInterval.right,
    ExactInterval.leftType, ExactInterval.rightType]
  rcases lt_trichotomy l r with h | h | h
  · have h1 : ¬ r < l := not_lt.mpr h.le
    have h2 : l ≠ r := ne_of_lt h
    simp [h, h1, h2]
  · subst h
    cases lt <;> cases rt <;> simp
  · have h1 : ¬ l < r := not_lt.mpr h.le
    have h2 : l ≠ r := ne_of_gt h
    simp [h, h1, h2]

/-- C2, counterexample: the interval with left bound `1` of type `INFTY` and right
bound `0` of type `WEAK` has inverted bounds (`left > right`), yet `empty()` is false
on it. -/
theorem empty_inverted_infty_counterexample :
    ¬ ((ExactInterval.mk (1 : ℚ) INFTY 0 WEAK).empty = true ↔
        ((ExactInterval.mk (1 : ℚ) INFTY 0 WEAK).left >
            (ExactInterval.mk (1 : ℚ) INFTY 0 WEAK).right ∨
          ((ExactInterval.mk (1 : ℚ) INFTY 0 WEAK).left =
              (ExactInterval.mk (1 : ℚ) INFTY 0 WEAK).right ∧
            ((ExactInterval.mk (1 : ℚ) INFTY 0 WEAK).leftType = STRICT ∨
              (ExactInterval.mk (1 : ℚ) INFTY 0 WEAK).rightType = STRICT)))) := by
  simp [ExactInterval.empty, ExactInterval.left, ExactInterval.right,
    ExactInterval.leftType, ExactInterval.rightType]

/-- C3: for an interval with neither bound type `INFTY` and `left <= right`
(`BOUNDS_OK`), `empty()` is true iff `left == right` and at least one bound type is
`STRICT`; an interval with `left < right` is not empty, and a point interval
(`left == right`, both types `WEAK`) is not empty. -/
theorem empty_iff_strict_point_of_bounds_ok {N : Type} [LinearOrder N]
    (i : ExactInterval N) (hl : i.leftType ≠ INFTY) (hr : i.rightType ≠ INFTY)
    (hle : i.left ≤ i.right) :
    (i.empty = true ↔
        (i.left = i.right ∧ (i.leftType = STRICT ∨ i.rightType = STRICT))) ∧
      (i.left < i.right → i.empty = false) ∧
      (i.left = i.right → i.leftType = WEAK → i.rightType = WEAK → i.empty = false) := by
  obtain ⟨l, lt, r, rt⟩ := i
  simp only [ExactInterval.left, ExactInterval.right, ExactInterval.leftType,
    ExactInterval.rightType] at hl hr hle
  simp only [ExactInterval.empty, ExactInterval.left, ExactInterval.right,
    ExactInterval.leftType, ExactInterval.rightType]
  rcases lt_or_eq_of_le hle with h | h
  · have h2 : l ≠ r := ne_of_lt h
    simp [h, h2]
  · subst h
    cases lt <;> cases rt <;> simp at hl hr ⊢

/-- C3, witness: the interval `]2, 2]` over the rationals meets the hypotheses. -/
theorem empty_iff_strict_point_of_bounds_ok_witness :
    ((ExactInterval.mk (2 : ℚ) STRICT 2 WEAK).leftType ≠ INFTY ∧
      (ExactInterval.mk (2 : ℚ) STRICT 2 WEAK).rightType ≠ INFTY ∧
      (ExactInterval.mk (2 : ℚ) STRICT 2 WEAK).left ≤
        (ExactInterval.mk (2 : ℚ) STRICT 2 WEAK).right) ∧
    (((ExactInterval.mk (2 : ℚ) STRICT 2 WEAK).empty = true ↔
        ((ExactInterval.mk (2 : ℚ) STRICT 2 WEAK).left =
            (ExactInterval.mk (2 : ℚ) STRICT 2 WEAK).right ∧
          ((ExactInterval.mk (2 : ℚ) STRICT 2 WEAK).leftType = STRICT ∨
            (ExactInterval.mk (2 : ℚ) STRICT 2 WEAK).rightType = STRICT))) ∧
      ((ExactInterval.mk (2 : ℚ) STRICT 2 WEAK).left <
          (ExactInterval.mk (2 : ℚ) STRICT 2 WEAK).right →
        (ExactInterval.mk (2 : ℚ) STRICT 2 WEAK).empty = false) ∧
      ((ExactInterval.mk (2 : ℚ) STRICT 2 WEAK).left =
          (ExactInterval.mk (2 : ℚ) STRICT 2 WEAK).right →
        (ExactInterval.mk (2 : ℚ) STRICT 2 WEAK).leftType = WEAK →
        (ExactInterval.mk (2 : ℚ) STRICT 2 WEAK).rightType = WEAK →
        (ExactInterval.mk (2 : ℚ) STRICT 2 WEAK).empty = false)) :=
  ⟨⟨by decide, by decide, le_refl _⟩,
    empty_iff_strict_point_of_bounds_ok (ExactInterval.mk (2 : ℚ) STRICT 2 WEAK)
      (by decide) (by decide) (le_refl _)⟩

/-- C4, evaluation of the setters: each of the four setters takes an interval that
satisfies `BOUNDS_OK` to one that does not. `setLeft(2)` and `setRight(-1)` on `[0, 1]`
cross the bounds, and `setLeftType(WEAK)` / `setRightType(WEAK)` uncover stored bounds
that are already crossed behind an `INFTY` type. -/
theorem setters_break_bounds_ok :
    (BOUNDS_OK (0 : ℚ) WEAK 1 WEAK = true ∧
      BOUNDS_OK ((ExactInterval.mk (0 : ℚ) WEAK 1 WEAK).setLeft 2).mLeft
        ((ExactInterval.mk (0 : ℚ) WEAK 1 WEAK).setLeft 2).mLeftType
        ((ExactInterval.mk (0 : ℚ) WEAK 1 WEAK).setLeft 2).mRight
        ((ExactInterval.mk (0 : ℚ) WEAK 1 WEAK).setLeft 2).mRightType = false) ∧
    (BOUNDS_OK (0 : ℚ) WEAK 1 WEAK = true ∧
      BOUNDS_OK ((ExactInterval.mk (0 : ℚ) WEAK 1 WEAK).setRight (-1)).mLeft
        ((ExactInterval.mk (0 : ℚ) WEAK 1 WEAK).setRight (-1)).mLeftType
        ((ExactInterval.mk (0 : ℚ) WEAK 1 WEAK).setRight (-1)).mRight
        ((ExactInterval.mk (0 : ℚ) WEAK 1 WEAK).setRight (-1)).mRightType = false) ∧
    (BOUNDS_OK (1 : ℚ) INFTY 0 WEAK = true ∧
      BOUNDS_OK ((ExactInterval.mk (1 : ℚ) INFTY 0 WEAK).setLeftType WEAK).mLeft
        ((ExactInterval.mk (1 : ℚ) INFTY 0 WEAK).setLeftType WEAK).mLeftType
        ((ExactInterval.mk (1 : ℚ) INFTY 0 WEAK).setLeftType WEAK).mRight
        ((ExactInterval.mk (1 : ℚ) INFTY 0 WEAK).setLeftType WEAK).mRightType = false) ∧
    (BOUNDS_OK (1 : ℚ) WEAK 0 INFTY = true ∧
      BOUNDS_OK ((ExactInterval.mk (1 : ℚ) WEAK 0 INFTY).setRightType WEAK).mLeft
        ((ExactInterval.mk (1 : ℚ) WEAK 0 INFTY).setRightType WEAK).mLeftType
        ((ExactInterval.mk (1 : ℚ) WEAK 0 INFTY).setRightType WEAK).mRight
        ((ExactInterval.mk (1 : ℚ) WEAK 0 INFTY).setRightType WEAK).mRightType = false) := by
  simp [BOUNDS_OK, ExactInterval.setLeft, ExactInterval.setRight,
    ExactInterval.setLeftType, ExactInterval.setRightType]

/-- C5: `getWeakestBoundType(t1, t2)` is `INFTY` iff one of the arguments is `INFTY`,
it is `STRICT` iff neither is `INFTY` and one of them is `STRICT`, and it is `WEAK` iff
both are `WEAK`; so it is the maximum of `t1` and `t2` under the order
`WEAK < STRICT < INFTY`. -/
theorem getWeakestBoundType_is_max (t1 t2 : BoundType) :
    (ExactInterval.getWeakestBoundType t1 t2 = INFTY ↔ (t1 = INFTY ∨ t2 = INFTY)) ∧
    (ExactInterval.getWeakestBoundType t1 t2 = STRICT ↔
      (¬ (t1 = INFTY ∨ t2 = INFTY) ∧ (t1 = STRICT ∨ t2 = STRICT))) ∧
    (ExactInterval.getWeakestBoundType t1 t2 = WEAK ↔
      (¬ (t1 = INFTY ∨ t2 = INFTY) ∧ ¬ (t1 = STRICT ∨ t2 = STRICT))) ∧
    (ExactInterval.getWeakestBoundType t1 t2 = t1 ∨
      ExactInterval.getWeakestBoundType t1 t2 = t2) ∧
    weaknessRank (ExactInterval.getWeakestBoundType t1 t2) =
      max (weaknessRank t1) (weaknessRank t2) := by
  cases t1 <;> cases t2 <;> simp [ExactInterval.getWeakestBoundType, weaknessRank]

/-- C6: `emptyExactInterval()` passes the constructor check and yields the interval
with bounds `0` and `0` and both bound types `STRICT`; on this interval `empty()` is
true, and `unbounded()` and `halfunbounded()` are false. -/
theorem emptyExactInterval_is_empty {N : Type} [LinearOrderedRing N] :
    (ExactInterval.emptyExactInterval : Option (ExactInterval N)) =
        some (ExactInterval.mk 0 STRICT 0 STRICT) ∧
      (ExactInterval.mk (0 : N) STRICT 0 STRICT).empty = true ∧
      (ExactInterval.mk (0 : N) STRICT 0 STRICT).unbounded = false ∧
      (ExactInterval.mk (0 : N) STRICT 0 STRICT).halfunbounded = false := by
  simp [ExactInterval.emptyExactInterval, ExactInterval.construct, BOUNDS_OK,
    ExactInterval.empty, ExactInterval.left, ExactInterval.right,
    ExactInterval.unbounded, ExactInterval.halfunbounded]

/-- C7: `unboundedExactInterval()` passes the constructor check `BOUNDS_OK` and yields
the interval with bounds `-1` and `1` and both bound types `INFTY`; on this interval
`unbounded()` is true and `empty()` is false. -/
theorem unboundedExactInterval_is_unbounded {N : Type} [LinearOrderedRing N] :
    (ExactInterval.unboundedExactInterval : Option (ExactInterval N)) =
        some (ExactInterval.mk (-1) INFTY 1 INFTY) ∧
      BOUNDS_OK (-1 : N) INFTY 1 INFTY = true ∧
      (ExactInterval.mk (-1 : N) INFTY 1 INFTY).unbounded = true ∧
      (ExactInterval.mk (-1 : N) INFTY 1 INFTY).empty = false := by
  simp [ExactInterval.unboundedExactInterval, ExactInterval.construct, BOUNDS_OK,
    ExactInterval.empty, ExactInterval.unbounded]

/-- C8: for every `n`, the point-interval constructor `ExactInterval(n)` yields an
interval with `left() == n`, `right() == n` and both bound types `WEAK`; it satisfies
`BOUNDS_OK`, and `empty()`, `unbounded()` and `halfunbounded()` are false on it. -/
theorem point_interval_properties {N : Type} [LinearOrder N] (n : N) :
    (ExactInterval.point n).left = n ∧
      (ExactInterval.point n).right = n ∧
      (ExactInterval.point n).leftType = WEAK ∧
      (ExactInterval.point n).rightType = WEAK ∧
      BOUNDS_OK (ExactInterval.point n).left (ExactInterval.point n).leftType
        (ExactInterval.point n).right (ExactInterval.point n).rightType = true ∧
      (ExactInterval.point n).empty = false ∧
      (ExactInterval.point n).unbounded = false ∧
      (ExactInterval.point n).halfunbounded = false := by
  simp [ExactInterval.point, ExactInterval.left, ExactInterval.right,
    ExactInterval.leftType, ExactInterval.rightType, BOUNDS_OK, ExactInterval.empty,
    ExactInterval.unbounded, ExactInterval.halfunbounded]

/-- C9: `unbounded()` is true iff both `leftType` and `rightType` are `INFTY`, and its
result does not depend on the stored bound values. -/
theorem unbounded_iff_both_infty {N : Type} (i : ExactInterval N) :
    (i.unbounded = true ↔ (i.leftType = INFTY ∧ i.rightType = INFTY)) ∧
      (∀ l r : N, (ExactInterval.mk l i.leftType r i.rightType).unbounded = i.unbounded) := by
  simp [ExactInterval.unbounded, ExactInterval.leftType, ExactInterval.rightType]

/-- C10: `sgn()` of the numeric representation is a compare-to-zero of the stored
value `v`: it is `ZERO` iff `v == 0`, `POSITIVE` iff `v > 0` and `NEGATIVE` iff
`v < 0`. -/
theorem sgn_is_compare_to_zero {N : Type} [LinearOrder N] [Zero N]
    (x : RealAlgebraicNumber N) :
    (x.sgn = Sign.ZERO ↔ x.value = 0) ∧
      (x.sgn = Sign.POSITIVE ↔ x.value > 0) ∧
      (x.sgn = Sign.NEGATIVE ↔ x.value < 0) := by
  unfold RealAlgebraicNumber.sgn
  rcases lt_trichotomy x.value 0 with h | h | h
  · have h1 : x.value ≠ 0 := ne_of_lt h
    have h2 : ¬ x.value > 0 := not_lt.mpr h.le
    simp [h, h1, h2]
  · simp [h]
  · have h1 : x.value ≠ 0 := ne_of_gt h
    have h2 : ¬ x.value < 0 := not_lt.mpr h.le
    simp [h, h1, h2]

/-- C11: for a numerically represented number and every polynomial `q`, `sgn(q)` is the
sign of `q` evaluated at `value()`: `ZERO` iff `q(value()) == 0`, `POSITIVE` iff
`q(value()) > 0`, `NEGATIVE` iff `q(value()) < 0`; the call leaves the number as it
was. -/
theorem sgnPoly_is_sign_of_evaluation {N P I : Type} [LinearOrder N] [Zero N]
    (evaluate : P → N → N) (x : RealAlgebraicNumber N) (q : P) :
    (x.sgnPoly evaluate q = Sign.ZERO ↔ evaluate q x.value = 0) ∧
      (x.sgnPoly evaluate q = Sign.POSITIVE ↔ evaluate q x.value > 0) ∧
      (x.sgnPoly evaluate q = Sign.NEGATIVE ↔ evaluate q x.value < 0) ∧
      x.stateAfter (RealAlgebraicNumber.Operation.sgnPoly q :
        RealAlgebraicNumber.Operation N P I) = x := by
  unfold RealAlgebraicNumber.sgnPoly
  rcases lt_trichotomy (evaluate q x.value) 0 with h | h | h
  · have h1 : evaluate q x.value ≠ 0 := ne_of_lt h
    have h2 : ¬ evaluate q x.value > 0 := not_lt.mpr h.le
    simp [h, h1, h2, RealAlgebraicNumber.stateAfter]
  · simp [h, RealAlgebraicNumber.stateAfter]
  · have h1 : evaluate q x.value ≠ 0 := ne_of_gt h
    have h2 : ¬ evaluate q x.value < 0 := not_lt.mpr h.le
    simp [h, h1, h2, RealAlgebraicNumber.stateAfter]

/-- C12: for a numerically represented number, `isZero()` is true iff the stored
`value()` equals `0`, whatever the flags `isRoot` and `isNumeric` are. -/
theorem isZero_iff_value_zero {N : Type} [DecidableEq N] [Zero N]
    (x : RealAlgebraicNumber N) :
    (x.isZero = true ↔ x.value = 0) ∧
      (∀ r n : Bool, (RealAlgebraicNumber.mk r n x.value).isZero = x.isZero) := by
  simp [RealAlgebraicNumber.isZero, RealAlgebraicNumber.value]

/-- C13: for a numerically represented number, `branchingPoint()` and
`approximateValue()` both return exactly `value()`; so the branching point has a
property (such as being integral) iff the value has it, and the approximation error is
zero. -/
theorem branchingPoint_and_approximateValue_eq_value {N : Type} [AddGroup N]
    (x : RealAlgebraicNumber N) :
    x.branchingPoint = x.value ∧ x.approximateValue = x.value ∧
      (∀ isIntegral : N → Prop, isIntegral x.branchingPoint ↔ isIntegral x.value) ∧
      x.approximateValue - x.value = 0 := by
  simp [RealAlgebraicNumber.branchingPoint, RealAlgebraicNumber.approximateValue]

/-- C14, evaluation of `create`: the number made by `create(true)`, with the default
arguments `isNumeric = false` and `value = 0`, is a numeric representation
(`isNumericRepresentation()` is true) on which `isNumeric()` is false; with
`isNumeric = true` passed, `isNumeric()` is true. -/
theorem create_default_not_numeric :
    (RealAlgebraicNumber.create true : RealAlgebraicNumber ℚ).isNumericRepresentation =
        true ∧
      (RealAlgebraicNumber.create true : RealAlgebraicNumber ℚ).isNumeric = false ∧
      (RealAlgebraicNumber.create true true (3 : ℚ)).isNumeric = true := by
  simp [RealAlgebraicNumber.create, RealAlgebraicNumber.isNumericRepresentation,
    RealAlgebraicNumber.isNumeric]

/-- C15: `isRoot` is independent of the represented value: after `setIsRoot(b)`,
`isRoot()` is `b`, while `value()`, `isNumeric()`, `sgn()`, `isZero()`,
`branchingPoint()` and `approximateValue()` return what they returned before. -/
theorem setIsRoot_frame {N : Type} [LinearOrder N] [Zero N]
    (x : RealAlgebraicNumber N) (b : Bool) :
    (x.setIsRoot b).isRoot = b ∧
      (x.setIsRoot b).value = x.value ∧
      (x.setIsRoot b).isNumeric = x.isNumeric ∧
      (x.setIsRoot b).sgn = x.sgn ∧
      (x.setIsRoot b).isZero = x.isZero ∧
      (x.setIsRoot b).branchingPoint = x.branchingPoint ∧
      (x.setIsRoot b).approximateValue = x.approximateValue := by
  simp [RealAlgebraicNumber.setIsRoot, RealAlgebraicNumber.isRoot,
    RealAlgebraicNumber.value, RealAlgebraicNumber.isNumeric, RealAlgebraicNumber.sgn,
    RealAlgebraicNumber.isZero, RealAlgebraicNumber.branchingPoint,
    RealAlgebraicNumber.approximateValue]

/-- C16 (as the code has it): every public operation other than `operator=` and
`setIsRoot` leaves the three fields `isRoot`, `isNumeric` and `value` unchanged, and
`setIsRoot(b)` sets `isRoot` to `b` and leaves `isNumeric` and `value` unchanged. -/
theorem const_operations_frame {N P I : Type} (x : RealAlgebraicNumber N) :
    x.stateAfter (RealAlgebraicNumber.Operation.isRoot :
        RealAlgebraicNumber.Operation N P I) = x ∧
      x.stateAfter (RealAlgebraicNumber.Operation.isZero :
        RealAlgebraicNumber.Operation N P I) = x ∧
      x.stateAfter (RealAlgebraicNumber.Operation.isNumeric :
        RealAlgebraicNumber.Operation N P I) = x ∧
      x.stateAfter (RealAlgebraicNumber.Operation.isNumericRepresentation :
        RealAlgebraicNumber.Operation N P I) = x ∧
      x.stateAfter (RealAlgebraicNumber.Operation.branchingPoint :
        RealAlgebraicNumber.Operation N P I) = x ∧
      x.stateAfter (RealAlgebraicNumber.Operation.value :
        RealAlgebraicNumber.Operation N P I) = x ∧
      (∀ i : I, x.stateAfter (RealAlgebraicNumber.Operation.containedIn i :
        RealAlgebraicNumber.Operation N P I) = x) ∧
      x.stateAfter (RealAlgebraicNumber.Operation.sgn :
        RealAlgebraicNumber.Operation N P I) = x ∧
      (∀ q : P, x.stateAfter (RealAlgebraicNumber.Operation.sgnPoly q :
        RealAlgebraicNumber.Operation N P I) = x) ∧
      x.stateAfter (RealAlgebraicNumber.Operation.approximateValue :
        RealAlgebraicNumber.Operation N P I) = x ∧
      x.stateAfter (RealAlgebraicNumber.Operation.clone :
        RealAlgebraicNumber.Operation N P I) = x ∧
      (∀ b : Bool,
        (x.stateAfter (RealAlgebraicNumber.Operation.setIsRoot b :
            RealAlgebraicNumber.Operation N P I)).mIsRoot = b ∧
          (x.stateAfter (RealAlgebraicNumber.Operation.setIsRoot b :
            RealAlgebraicNumber.Operation N P I)).mIsNumeric = x.mIsNumeric ∧
          (x.stateAfter (RealAlgebraicNumber.Operation.setIsRoot b :
            RealAlgebraicNumber.Operation N P I)).mValue = x.mValue) := by
  simp [RealAlgebraicNumber.stateAfter, RealAlgebraicNumber.setIsRoot]

/-- C16, counterexample: on the number with `isRoot = false`, `isNumeric = true` and
`value = 0`, the call `setIsRoot(true)` changes the field `isRoot`. -/
theorem setIsRoot_changes_isRoot_counterexample :
    ¬ ((RealAlgebraicNumber.mk false true (0 : ℚ)).stateAfter
          (RealAlgebraicNumber.Operation.setIsRoot true :
            RealAlgebraicNumber.Operation ℚ Unit Unit) =
        RealAlgebraicNumber.mk false true (0 : ℚ)) := by
  simp [RealAlgebraicNumber.stateAfter, RealAlgebraicNumber.setIsRoot]

/-- C17: factory and clone round trip. `create(isRoot, isNumeric, value)` returns a
number whose `isRoot()`, `isNumeric()` and `value()` are the arguments, with
`isNumeric = false` and `value = 0` when they are omitted; and `x.clone()` has the same
`isRoot()`, `isNumeric()` and `value()` as `x`, hence the same `sgn()` and `isZero()`. -/
theorem create_clone_round_trip {N : Type} [LinearOrder N] [Zero N]
    (isRoot isNumeric : Bool) (value : N) (x : RealAlgebraicNumber N) :
    ((RealAlgebraicNumber.create isRoot isNumeric value).isRoot = isRoot ∧
        (RealAlgebraicNumber.create isRoot isNumeric value).isNumeric = isNumeric ∧
        (RealAlgebraicNumber.create isRoot isNumeric value).value = value) ∧
      ((RealAlgebraicNumber.create isRoot isNumeric : RealAlgebraicNumber N).isRoot =
          isRoot ∧
        (RealAlgebraicNumber.create isRoot isNumeric : RealAlgebraicNumber N).isNumeric =
          isNumeric ∧
        (RealAlgebraicNumber.create isRoot isNumeric : RealAlgebraicNumber N).value = 0) ∧
      ((RealAlgebraicNumber.create isRoot : RealAlgebraicNumber N).isRoot = isRoot ∧
        (RealAlgebraicNumber.create isRoot : RealAlgebraicNumber N).isNumeric = false ∧
        (RealAlgebraicNumber.create isRoot : RealAlgebraicNumber N).value = 0) ∧
      (x.clone.isRoot = x.isRoot ∧ x.clone.isNumeric = x.isNumeric ∧
        x.clone.value = x.value ∧ x.clone.sgn = x.sgn ∧ x.clone.isZero = x.isZero) := by
  simp [RealAlgebraicNumber.create, RealAlgebraicNumber.clone, RealAlgebraicNumber.isRoot,
    RealAlgebraicNumber.isNumeric, RealAlgebraicNumber.value, RealAlgebraicNumber.sgn,
    RealAlgebraicNumber.isZero]

/-- C18: whole-object assignment copies everything: after `a = o`, `a.isRoot()`,
`a.isNumeric()` and `a.value()` equal those of `o`, and `o` is unchanged. -/
theorem assign_copies_all {N : Type} (a o : RealAlgebraicNumber N) :
    (a.assign o).1.isRoot = o.isRoot ∧
      (a.assign o).1.isNumeric = o.isNumeric ∧
      (a.assign o).1.value = o.value ∧
      (a.assign o).2 = o := by
  simp [RealAlgebraicNumber.assign, RealAlgebraicNumber.isRoot,
    RealAlgebraicNumber.isNumeric, RealAlgebraicNumber.value]

/-- C19, evaluation of `create`: the number made by `create(false, false, 5)` has
`isNumeric()` false and `value()` equal to `5`, which is not `0`; with the value
omitted, `value()` is `0`. -/
theorem create_keeps_value_when_not_numeric :
    (RealAlgebraicNumber.create false false (5 : ℚ)).isNumeric = false ∧
      (RealAlgebraicNumber.create false false (5 : ℚ)).value = 5 ∧
      (RealAlgebraicNumber.create false false (5 : ℚ)).value ≠ 0 ∧
      (RealAlgebraicNumber.create false false : RealAlgebraicNumber ℚ).value = 0 := by
  simp [RealAlgebraicNumber.create, RealAlgebraicNumber.isNumeric,
    RealAlgebraicNumber.value]

/-- C20: when at least one bound type is `INFTY`, `empty()` is false whatever the
stored bound values are. -/
theorem empty_false_of_infty {N : Type} [LinearOrder N] (i : ExactInterval N)
    (h : i.leftType = INFTY ∨ i.rightType = INFTY) : i.empty = false := by
  obtain ⟨l, lt, r, rt⟩ := i
  simp only [ExactInterval.leftType, ExactInterval.rightType] at h
  rcases h with h | h <;> simp [ExactInterval.empty, h]

/-- C20, witness: the interval with left bound `1` of type `STRICT` and right bound
`0` of type `INFTY`, whose stored left value exceeds the stored right value. -/
theorem empty_false_of_infty_witness :
    ((ExactInterval.mk (1 : ℚ) STRICT 0 INFTY).leftType = INFTY ∨
        (ExactInterval.mk (1 : ℚ) STRICT 0 INFTY).rightType = INFTY) ∧
      (ExactInterval.mk (1 : ℚ) STRICT 0 INFTY).left >
        (ExactInterval.mk (1 : ℚ) STRICT 0 INFTY).right ∧
      (ExactInterval.mk (1 : ℚ) STRICT 0 INFTY).empty = false :=
  ⟨Or.inr rfl, by simp [ExactInterval.left, ExactInterval.right],
    empty_false_of_infty (ExactInterval.mk (1 : ℚ) STRICT 0 INFTY) (Or.inr rfl)⟩

/-- C21: every non-empty interval has non-crossing bounds: if `empty()` is false then
`BOUNDS_OK` holds, and an interval that violates `BOUNDS_OK` is reported as empty. -/
theorem bounds_ok_of_not_empty {N : Type} [LinearOrder N] (i : ExactInterval N) :
    (i.empty = false →
        BOUNDS_OK i.left i.leftType i.right i.rightType = true) ∧
      (BOUNDS_OK i.left i.leftType i.right i.rightType = false → i.empty = true) := by
  obtain ⟨l, lt, r, rt⟩ := i
  simp only [ExactInterval.empty, BOUNDS_OK, ExactInterval.left, ExactInterval.right,
    ExactInterval.leftType, ExactInterval.rightType]
  rcases lt_trichotomy l r with h | h | h
  · simp [h, h.le]
  · subst h
    simp
  · have h1 : ¬ l < r := not_lt.mpr h.le
    have h2 : l ≠ r := ne_of_gt h
    have h3 : ¬ l ≤ r := not_le.mpr h
    cases lt <;> cases rt <;> simp [h1, h2, h3]

/-- C21, witness: the interval `[0, 1]` is not empty and satisfies `BOUNDS_OK`, and the
interval with bounds `2` and `1`, both `WEAK`, violates `BOUNDS_OK` and is empty. -/
theorem bounds_ok_of_not_empty_witness :
    ((ExactInterval.mk (0 : ℚ) WEAK 1 WEAK).empty = false ∧
        BOUNDS_OK (0 : ℚ) WEAK 1 WEAK = true) ∧
      (BOUNDS_OK (2 : ℚ) WEAK 1 WEAK = false ∧
        (ExactInterval.mk (2 : ℚ) WEAK 1 WEAK).empty = true) :=
  have h1 : (ExactInterval.mk (0 : ℚ) WEAK 1 WEAK).empty = false := by
    simp [ExactInterval.empty, ExactInterval.left, ExactInterval.right]
  have h2 : BOUNDS_OK (2 : ℚ) WEAK 1 WEAK = false := by
    simp [BOUNDS_OK]
  ⟨⟨h1, (bounds_ok_of_not_empty (ExactInterval.mk (0 : ℚ) WEAK 1 WEAK)).1 h1⟩,
    ⟨h2, (bounds_ok_of_not_empty (ExactInterval.mk (2 : ℚ) WEAK 1 WEAK)).2 h2⟩⟩

/-- C22: `getWeakestBoundType` is commutative, associative and idempotent on
`{WEAK, STRICT, INFTY}`, with `WEAK` as identity and `INFTY` as absorbing element. -/
theorem getWeakestBoundType_semilattice (t1 t2 t3 : BoundType) :
    ExactInterval.getWeakestBoundType t1 t2 = ExactInterval.getWeakestBoundType t2 t1 ∧
      ExactInterval.getWeakestBoundType (ExactInterval.getWeakestBoundType t1 t2) t3 =
        ExactInterval.getWeakestBoundType t1 (ExactInterval.getWeakestBoundType t2 t3) ∧
      ExactInterval.getWeakestBoundType t1 t1 = t1 ∧
      ExactInterval.getWeakestBoundType WEAK t1 = t1 ∧
      ExactInterval.getWeakestBoundType INFTY t1 = INFTY := by
  cases t1 <;> cases t2 <;> cases t3 <;> simp [ExactInterval.getWeakestBoundType]

/-- C23: for a numerically represented number, `isZero()` and `sgn()` agree:
`isZero()` is true iff `sgn()` returns `Sign::ZERO`. -/
theorem isZero_iff_sgn_zero {N : Type} [LinearOrder N] [Zero N]
    (x : RealAlgebraicNumber N) :
    x.isZero = true ↔ x.sgn = Sign.ZERO := by
  unfold RealAlgebraicNumber.isZero RealAlgebraicNumber.sgn
  by_cases h : x.value = 0
  · simp [h]
  · by_cases h2 : x.value > 0 <;> simp [h, h2]

/-- C24: `MultivariateHorner` assignment copies the whole node: after `a = b` the six
observable fields of `a` (`getVariable`, `getExponent`, `getDepConstant`,
`getIndepConstant`, `getDependent`, `getIndependent`) equal those of `b`, and `b` is
unchanged. -/
theorem horner_assign_copies_node {C V : Type} (a b : MultivariateHorner C V) :
    (a.assign b).1.getVariable = b.getVariable ∧
      (a.assign b).1.getExponent = b.getExponent ∧
      (a.assign b).1.getDepConstant = b.getDepConstant ∧
      (a.assign b).1.getIndepConstant = b.getIndepConstant ∧
      (a.assign b).1.getDependent = b.getDependent ∧
      (a.assign b).1.getIndependent = b.getIndependent ∧
      (a.assign b).2 = b := by
  cases b
  simp [MultivariateHorner.assign, MultivariateHorner.getVariable,
    MultivariateHorner.getExponent, MultivariateHorner.getDepConstant,
    MultivariateHorner.getIndepConstant, MultivariateHorner.getDependent,
    MultivariateHorner.getIndependent]

end carl
